import Mathlib

/-!
# Verification of the weather-icon micro-service (`src/index.js`)

Shallow embedding of the three pipeline stages of the service:

* `getLocationIp` / `getLocationResolve` — the address-selection and the
  geolocation-response handler inside `getLocation`;
* `requestJSON` — the JSON-over-HTTP helper used by both lookups;
* `getIcon` — the pure condition-code → SVG renderer.

JavaScript values that matter for the control flow (truthiness of the
`lat`/`lon` fields, absent object fields, absent `currently`) are modelled
by the small `JSVal` type and `Option`; strings stay Lean `String`s.
-/

set_option maxRecDepth 40000
set_option maxHeartbeats 4000000

/-- A JavaScript runtime value, restricted to the scalar shapes the service
ever inspects.  `undefined` (an absent field) is modelled by `Option.none`
at the use sites, not by a constructor. -/
inductive JSVal where
  | vnull : JSVal
  | vnan : JSVal
  | vnum (q : Rat) : JSVal
  | vstr (s : String) : JSVal
  | vbool (b : Bool) : JSVal
deriving DecidableEq, Repr

/-- JavaScript truthiness of a value: `null`, `NaN`, `0`, `""` and `false`
are falsy, every other scalar is truthy. -/
def JSVal.truthy : JSVal → Bool
  | .vnull => false
  | .vnan => false
  | .vnum q => !(q == 0)
  | .vstr s => !(s == "")
  | .vbool b => b

/-- Truthiness of a possibly-absent value: `undefined` (absent) is falsy. -/
def jsTruthy : Option JSVal → Bool
  | none => false
  | some v => v.truthy

-- ## Constants of `src/index.js`

def IP_LOOKUP_BASE_URL : String := "http://ip-api.com/json/"

def WEATHER_LOOKUP_BASE_URL : String := "https://api.darksky.net/forecast/"

/-- The template literal opening `getIcon`'s SVG document (lines 121–122). -/
def SVG_DOC_OPEN : String := "<?xml version=\"1.0\" encoding=\"UTF-8\" ?>\n<svg xmlns=\"http://www.w3.org/2000/svg\" version=\"1.1\" viewbox=\"0 0 200 230\">"

def SVG_SUN : String := "\n<g fill=\"#FFE000\" stroke=\"#FEE000\">\n\t<circle r=\"30\" cx=\"100\" cy=\"100\" />\n\t<g transform=\"translate(100 100)\">\n\t\t<line x1=\"0\" x2=\"0\" y1=\"35\" y2=\"70\" stroke-width=\"4\" transform=\"rotate(0)\"  />\n\t\t<line x1=\"0\" x2=\"0\" y1=\"35\" y2=\"60\" stroke-width=\"4\" transform=\"rotate(45)\"  />\n\t\t<line x1=\"0\" x2=\"0\" y1=\"35\" y2=\"70\" stroke-width=\"4\" transform=\"rotate(90)\"  />\n\t\t<line x1=\"0\" x2=\"0\" y1=\"35\" y2=\"60\" stroke-width=\"4\" transform=\"rotate(135)\" />\n\t\t<line x1=\"0\" x2=\"0\" y1=\"35\" y2=\"70\" stroke-width=\"4\" transform=\"rotate(180)\" />\n\t\t<line x1=\"0\" x2=\"0\" y1=\"35\" y2=\"60\" stroke-width=\"4\" transform=\"rotate(225)\" />\n\t\t<line x1=\"0\" x2=\"0\" y1=\"35\" y2=\"70\" stroke-width=\"4\" transform=\"rotate(270)\" />\n\t\t<line x1=\"0\" x2=\"0\" y1=\"35\" y2=\"60\" stroke-width=\"4\" transform=\"rotate(315)\" />\n\t</g>\n</g>\n"

def SVG_MOON : String := "\n<g fill=\"#E0E0E0\">\n\t<circle r=\"50\" cx=\"100\" cy=\"100\" />\n\t<g fill=\"#CCCCCC\">\n\t\t<circle r=\"10\" cx=\"80\" cy=\"90\" />\n\t\t<circle r=\"7\" cx=\"115\" cy=\"110\" />\n\t\t<circle r=\"8\" cx=\"90\" cy=\"120\" />\n\t</g>\n</g>\n"

def SVG_CLOUD : String := "\n<g fill=\"#ACACAC\">\n\t<circle r=\"40\" cx=\"120\" cy=\"70\" />\n\t<circle r=\"35\" cx=\"70\" cy=\"90\" />\n\t<circle r=\"40\" cx=\"140\" cy=\"90\" />\n\t<circle r=\"35\" cx=\"100\" cy=\"105\" />\n</g>\n"

def SVG_PARTLY_CLOUDY_TRANSFORM : String := "transform=\"translate(20 50)\""

def SVG_RAIN : String := "\n<g stroke=\"#1F90CC\" stroke-width=\"2\" transform=\"translate(100 100) rotate(25)\">\n\t<line x1=\"0\" x2=\"0\" y1=\"35\" y2=\"60\" transform=\"translate(10 20)\"   />\n\t<line x1=\"0\" x2=\"0\" y1=\"35\" y2=\"60\" transform=\"translate(-20 10)\"  />\n\t<line x1=\"0\" x2=\"0\" y1=\"35\" y2=\"60\" transform=\"translate(0 0)\"     />\n\t<line x1=\"0\" x2=\"0\" y1=\"35\" y2=\"60\" transform=\"translate(30 30)\"   />\n\t<line x1=\"0\" x2=\"0\" y1=\"35\" y2=\"60\" transform=\"translate(20 -10)\"  />\n\t<line x1=\"0\" x2=\"0\" y1=\"35\" y2=\"60\" transform=\"translate(40 -5)\"   />\n\t<line x1=\"0\" x2=\"0\" y1=\"35\" y2=\"60\" transform=\"translate(50 -30)\"  />\n\t<line x1=\"0\" x2=\"0\" y1=\"35\" y2=\"60\" transform=\"translate(-40 -10)\" />\n\t<line x1=\"0\" x2=\"0\" y1=\"35\" y2=\"60\" transform=\"translate(-30 40)\"  />\n</g>\n"

def SVG_SNOW : String := "\n<g fill=\"#FFFFFF\" transform=\"translate(100 130)\">\n\t<circle r=\"7\" cx=\"25\" cy=\"15\" />\n\t<circle r=\"7\" cx=\"35\" cy=\"50\" />\n\t<circle r=\"7\" cx=\"50\" cy=\"20\" />\n\t<circle r=\"7\" cx=\"10\" cy=\"60\" />\n\t<circle r=\"7\" cx=\"-50\" cy=\"20\" />\n\t<circle r=\"7\" cx=\"0\" cy=\"35\" />\n\t<circle r=\"7\" cx=\"-20\" cy=\"10\" />\n\t<circle r=\"7\" cx=\"-35\" cy=\"45\" />\n</g>"

def SVG_WIND : String := "\n<g fill=\"none\" stroke=\"#FFFFFF\" stroke-width=\"3\" transform=\"translate(0, 40)\">\n\t<g>\n\t\t<path d=\"M 10,30 Q 70,50 110,23 L 110,59\" fill=\"#D9F4FF\" />\n\t\t<circle r=\"20\" cx=\"120\" cy=\"40\" fill=\"#D0EFFF\" opacity=\"0.9\"/>\n\t</g>\n\t<g transform=\"translate(20, 25)\">\n\t\t<path d=\"M 30,30 Q 70,50 110,23 L 110,59\" fill=\"#D9F4FF\" />\n\t\t<circle r=\"20\" cx=\"120\" cy=\"40\" fill=\"#D0EFFF\" opacity=\"0.9\"/>\n\t</g>\n\t<g transform=\"translate(50, 50)\">\n\t\t<path d=\"M 40,30 Q 70,50 110,23 L 110,59\" fill=\"#D9F4FF\" />\n\t\t<circle r=\"20\" cx=\"120\" cy=\"40\" fill=\"#D0EFFF\" opacity=\"0.9\"/>\n\t</g>\n</g>\n"

def SVG_CREDIT : String := "<text fill=\"#606060\" x=\"0\" y=\"220\" font-size=\"10\" font-family=\"Helvetica\">Powered By Dark Sky</text>"

-- ## The weather payload and `getIcon`

/-- The `currently` object of a parsed Dark Sky response: the `icon`
condition-code field that `getIcon` reads, plus all the other fields of the
payload (temperature, summary, …), which the renderer never touches. -/
structure Currently where
  icon : String
  extra : List (String × JSVal)
deriving DecidableEq, Repr

/-- A parsed Dark Sky weather response.  `currently` is `none` when the
parsed JSON object has no `currently` field (in JavaScript the field access
`weather.currently.icon` then throws a `TypeError`). -/
structure WeatherPayload where
  currently : Option Currently
  extra : List (String × JSVal)
deriving DecidableEq, Repr

/-- A JavaScript runtime exception, as thrown by a field access on
`undefined`. -/
inductive JsError where
  | typeError : JsError
deriving DecidableEq, Repr

/-- `getIcon` (src/index.js lines 117–173).  Reading
`weather.currently.icon` throws when `currently` is absent; otherwise the
SVG string is assembled exactly as in the source: document opener, the
base-layer `switch`, the cloud `switch` (with the partly-cloudy wrapping
group and its fall-through into the `default` branch), the closing `</g>`
for the partly-cloudy group, the credit text, and the `</svg>` footer.
The JavaScript `switch` on a string compares with `===`, embedded here as
chained string equality tests in source order. -/
def getIcon (weather : WeatherPayload) : Except JsError String :=
  match weather.currently with
  | none => Except.error JsError.typeError
  | some currently =>
    let icon := currently.icon
    let svg := SVG_DOC_OPEN
    let svg := svg ++
      (if icon == "clear-day" || icon == "partly-cloudy-day" then SVG_SUN
       else if icon == "clear-night" || icon == "partly-cloudy-night" then SVG_MOON
       else if icon == "rain" then SVG_RAIN
       else if icon == "snow" || icon == "hail" then SVG_SNOW
       else if icon == "sleet" then SVG_RAIN ++ SVG_SNOW
       else if icon == "wind" then SVG_WIND
       else "")
    let svg := svg ++
      (if icon == "clear-day" || icon == "clear-night" || icon == "wind" then ""
       else if icon == "partly-cloudy-day" || icon == "partly-cloudy-night" then
         "<g " ++ SVG_PARTLY_CLOUDY_TRANSFORM ++ ">" ++ SVG_CLOUD
       else SVG_CLOUD)
    let svg := if icon == "partly-cloudy-day" || icon == "partly-cloudy-night" then
        svg ++ "</g>"
      else svg
    let svg := svg ++ SVG_CREDIT
    Except.ok (svg ++ "</svg>")

-- ## Substring utilities used to state the rendering claims

/-- `hasSubstr n h` holds when the character list `n` occurs contiguously
inside `h`. -/
def hasSubstr (n : List Char) : List Char → Bool
  | [] => n.isEmpty
  | c :: t => n.isPrefixOf (c :: t) || hasSubstr n t

/-- Number of positions of `h` at which the (non-empty) pattern `n`
occurs. -/
def substrCount (n : List Char) : List Char → Nat
  | [] => 0
  | c :: t => (if n.isPrefixOf (c :: t) then 1 else 0) + substrCount n t

/-- `contains?` lifted to strings. -/
def strHas (h n : String) : Bool := hasSubstr n.data h.data

/-- The nine condition codes `getIcon` recognises. -/
def knownIcons : List String :=
  ["clear-day", "clear-night", "partly-cloudy-day", "partly-cloudy-night",
   "rain", "snow", "hail", "sleet", "wind"]

/-- The SVG produced for any unrecognised condition code: no base layer,
the cloud overlay and the credit. -/
def DEFAULT_ICON_SVG : String :=
  SVG_DOC_OPEN ++ "" ++ SVG_CLOUD ++ SVG_CREDIT ++ "</svg>"

-- ## The geolocation stage (`getLocation`, src/index.js lines 62–87)

/-- The parsed body of an `ip-api.com` response, as far as `getLocation`
inspects it: the `lat` and `lon` fields (absent on a failed lookup, when
the service answers `status: "fail"` without coordinates) and the rest of
the object, which the code never reads. -/
structure IpResponse where
  lat : Option JSVal
  lon : Option JSVal
  extra : List (String × JSVal)
deriving DecidableEq, Repr

/-- The response handler of `getLocation` (src/index.js lines 76–86): read
`ipData.lat` and `ipData.lon`, throw `Error('Unable to find your
location')` when `!lat || !long` (JavaScript truthiness), otherwise
resolve with the array `[lat, long]`. -/
def getLocationResolve (ipData : IpResponse) : Except String (Option JSVal × Option JSVal) :=
  let lat := ipData.lat
  let long := ipData.lon
  if !(jsTruthy lat) || !(jsTruthy long) then
    Except.error "Unable to find your location"
  else
    Except.ok (lat, long)

/-- The address-selection step of `getLocation` (src/index.js lines
62–73): `proxyaddr.all(req, 'uniquelocal')` yields the list of addresses
of the trusted-proxy walk (entries may be `undefined` when the socket has
no remote address, modelled by `none`); the code takes its last element
and replaces a falsy result (`undefined` or the empty string) by the fixed
Seattle fallback address. -/
def getLocationIp (addrs : List (Option String)) : String :=
  match addrs.getLast? with
  | some (some s) => if s == "" then "156.74.181.208" else s
  | _ => "156.74.181.208"

/-- The URL `getLocation` passes to `requestJSON` (src/index.js line 75). -/
def geoUrl (addrs : List (Option String)) : String :=
  IP_LOOKUP_BASE_URL ++ getLocationIp addrs

-- ## The HTTP/JSON helper (`requestJSON`, src/index.js lines 41–45)

/-- Outcome of `Request.getAsync(url)` for the promisified `request`
library: the promise rejects only on a transport-level failure (DNS,
connection, …); any received HTTP response — whatever its status code —
resolves the promise with the pair `[response, body]`. -/
inductive HttpOutcome where
  | failure (msg : String) : HttpOutcome
  | success (statusCode : Nat) (body : String) : HttpOutcome
deriving DecidableEq, Repr

/-- How `requestJSON` can fail: a rejected transport promise, or a body
`JSON.parse` throws on. -/
inductive ReqError where
  | network (msg : String) : ReqError
  | parse (body : String) : ReqError
deriving DecidableEq, Repr

/-- Model of the JavaScript `JSON.parse` builtin, restricted to the
top-level literals this development evaluates it on: `null`, `true`,
`false` and non-negative decimal integer numerals; every other string is
treated as unparseable.  (On these inputs the model agrees with the real
builtin; the theorems below never depend on how other strings parse.) -/
def jsonParse (s : String) : Option JSVal :=
  if s == "null" then some JSVal.vnull
  else if s == "true" then some (JSVal.vbool true)
  else if s == "false" then some (JSVal.vbool false)
  else if !s.data.isEmpty && s.data.all Char.isDigit then
    some (JSVal.vnum ((s.data.foldl (fun n c => n * 10 + (c.toNat - 48)) 0 : Nat) : Rat))
  else none

/-- `requestJSON` (src/index.js lines 41–45): `Request.getAsync(url)`,
`.get(1)` (the body component of `[response, body]`), `.then(JSON.parse)`.
The status code of a received response is bound but never inspected. -/
def requestJSON (outcome : HttpOutcome) : Except ReqError JSVal :=
  match outcome with
  | .failure msg => Except.error (ReqError.network msg)
  | .success _ body =>
    match jsonParse body with
    | some v => Except.ok v
    | none => Except.error (ReqError.parse body)

/-- Spec-side predicate: is an HTTP status code a 2xx success code? -/
def is2xx (status : Nat) : Bool := 200 ≤ status && status < 300

-- ## Spec-side coordinate predicates (for the C1 statements)

/-- Spec-side reading of "present and numeric" for a coordinate field of
the geolocation response. -/
def coordIsNumber (o : Option JSVal) : Bool :=
  match o with
  | some (.vnum _) => true
  | _ => false

/-- Spec-side enumeration of the JavaScript-falsy coordinate fields:
absent, `null`, `NaN`, the number `0`, the empty string, or `false`. -/
def coordFalsy (o : Option JSVal) : Bool :=
  match o with
  | none => true
  | some .vnull => true
  | some .vnan => true
  | some (.vnum q) => q == 0
  | some (.vstr s) => s == ""
  | some (.vbool b) => !b

-- ## Helper lemmas

/-- Spec-side falsiness agrees with the negation of the code's truthiness
check. -/
lemma coordFalsy_eq_not_jsTruthy (o : Option JSVal) :
    coordFalsy o = !(jsTruthy o) := by
  rcases o with _ | v
  · rfl
  · cases v <;> simp [coordFalsy, jsTruthy, JSVal.truthy]

/-- An unrecognised condition code takes the default branch of both
`switch` statements: no base layer, an unwrapped cloud, the credit. -/
lemma getIcon_unknown (c : String) (e p : List (String × JSVal))
    (h : c ∉ knownIcons) :
    getIcon ⟨some ⟨c, e⟩, p⟩ = Except.ok DEFAULT_ICON_SVG := by
  simp only [knownIcons, List.mem_cons, List.not_mem_nil, or_false, not_or] at h
  obtain ⟨n1, n2, n3, n4, n5, n6, n7, n8, n9⟩ := h
  simp only [getIcon, DEFAULT_ICON_SVG, beq_eq_false_iff_ne.mpr n1,
    beq_eq_false_iff_ne.mpr n2, beq_eq_false_iff_ne.mpr n3,
    beq_eq_false_iff_ne.mpr n4, beq_eq_false_iff_ne.mpr n5,
    beq_eq_false_iff_ne.mpr n6, beq_eq_false_iff_ne.mpr n7,
    beq_eq_false_iff_ne.mpr n8, beq_eq_false_iff_ne.mpr n9,
    Bool.or_false, Bool.false_or, Bool.or_self, Bool.false_eq_true,
    if_false, ite_false]

-- ## C1 — the geolocation response handler

/-- Claim C1 as stated is false: a response whose `lat` and `lon` are both
present and numeric, with `lat = 0`, is rejected by the handler (the code
tests JavaScript truthiness `!lat || !long`, and the number `0` is falsy),
instead of resolving with the pair. -/
theorem claim_C1_counterexample :
    coordIsNumber (some (JSVal.vnum 0)) = true ∧
    coordIsNumber (some (JSVal.vnum 10)) = true ∧
    getLocationResolve ⟨some (JSVal.vnum 0), some (JSVal.vnum 10), []⟩ =
      Except.error "Unable to find your location" := by
  refine ⟨rfl, rfl, ?_⟩
  simp [getLocationResolve, jsTruthy, JSVal.truthy]

/-- Claim C1 (amended): the resolver stage fails with the
`LocationUnavailable` error if and only if the response's `lat` or `lon`
field is JavaScript-falsy (absent, `null`, `NaN`, the number `0`, the
empty string, or `false`); when both fields are truthy — numeric or not —
it resolves with the pair `[lat, lon]`. -/
theorem claim_C1_amended (r : IpResponse) :
    (getLocationResolve r = Except.error "Unable to find your location" ↔
      (coordFalsy r.lat || coordFalsy r.lon) = true) ∧
    (coordFalsy r.lat = false → coordFalsy r.lon = false →
      getLocationResolve r = Except.ok (r.lat, r.lon)) := by
  have h1 := coordFalsy_eq_not_jsTruthy r.lat
  have h2 := coordFalsy_eq_not_jsTruthy r.lon
  by_cases t1 : jsTruthy r.lat <;> by_cases t2 : jsTruthy r.lon <;>
    simp [getLocationResolve, t1, t2, h1, h2]

/-- Witness for C1 (amended) at a concrete truthy response. -/
theorem claim_C1_amended_witness :
    getLocationResolve ⟨some (JSVal.vnum 3), some (JSVal.vnum 4), []⟩ =
      Except.ok (some (JSVal.vnum 3), some (JSVal.vnum 4)) :=
  (claim_C1_amended ⟨some (JSVal.vnum 3), some (JSVal.vnum 4), []⟩).2
    (by decide) (by decide)

-- ## C2 — `requestJSON` and the weather fetch

/-- Claim C2 as stated is false: the response status code is never
examined, so a non-2xx response whose body is parseable JSON yields a
successful result (here a 404 carrying the valid JSON body `true`). -/
theorem claim_C2_counterexample :
    is2xx 404 = false ∧
    requestJSON (HttpOutcome.success 404 "true") =
      Except.ok (JSVal.vbool true) := by
  exact ⟨rfl, rfl⟩

/-- Claim C2 (amended): `requestJSON` fails with a `WeatherLookupError`
exactly on a transport-level network failure or an unparseable JSON body;
the HTTP status code of a received response is never examined, so the
result for a response depends only on its body, and a parseable body
yields success whatever the status code. -/
theorem claim_C2_amended (s s' : Nat) (b msg : String) :
    requestJSON (HttpOutcome.failure msg) =
      Except.error (ReqError.network msg) ∧
    requestJSON (HttpOutcome.success s b) =
      requestJSON (HttpOutcome.success s' b) ∧
    (jsonParse b = none →
      requestJSON (HttpOutcome.success s b) = Except.error (ReqError.parse b)) ∧
    (∀ v, jsonParse b = some v →
      requestJSON (HttpOutcome.success s b) = Except.ok v) := by
  refine ⟨rfl, rfl, ?_, ?_⟩
  · intro h
    simp [requestJSON, h]
  · intro v h
    simp [requestJSON, h]

/-- Witness for C2 (amended): an unparseable body is reported as a parse
failure. -/
theorem claim_C2_amended_witness :
    requestJSON (HttpOutcome.success 404 "nope") =
      Except.error (ReqError.parse "nope") :=
  (claim_C2_amended 404 200 "nope" "boom").2.2.1 rfl

-- ## C3 — unrecognised condition codes

/-- Claim C3: for every condition code outside the enumerated set, the
rendered SVG contains no base-layer fragment (no sun, moon, rain, snow or
wind fragment) but does contain the cloud fragment and the credit text. -/
theorem claim_C3 (c : String) (e p : List (String × JSVal))
    (h : c ∉ knownIcons) :
    ∃ out, getIcon ⟨some ⟨c, e⟩, p⟩ = Except.ok out ∧
      strHas out SVG_CLOUD = true ∧
      strHas out SVG_CREDIT = true ∧
      strHas out SVG_SUN = false ∧
      strHas out SVG_MOON = false ∧
      strHas out SVG_RAIN = false ∧
      strHas out SVG_SNOW = false ∧
      strHas out SVG_WIND = false := by
  exact ⟨DEFAULT_ICON_SVG, getIcon_unknown c e p h, by decide, by decide,
    by decide, by decide, by decide, by decide, by decide⟩

/-- Witness for C3 at the real Dark Sky code `cloudy`, which the renderer
does not recognise. -/
theorem claim_C3_witness :
    ∃ out, getIcon ⟨some ⟨"cloudy", []⟩, []⟩ = Except.ok out ∧
      strHas out SVG_CLOUD = true ∧
      strHas out SVG_CREDIT = true ∧
      strHas out SVG_SUN = false ∧
      strHas out SVG_MOON = false ∧
      strHas out SVG_RAIN = false ∧
      strHas out SVG_SNOW = false ∧
      strHas out SVG_WIND = false :=
  claim_C3 "cloudy" [] [] (by decide)

-- ## C5 — sleet combines rain and snow

/-- Claim C5: the SVG rendered for `sleet` contains the rain fragment and
the snow fragment, with rain immediately first (the two fragments occur
contiguously, rain then snow). -/
theorem claim_C5 :
    ∃ out, getIcon ⟨some ⟨"sleet", []⟩, []⟩ = Except.ok out ∧
      strHas out SVG_RAIN = true ∧
      strHas out SVG_SNOW = true ∧
      strHas out (SVG_RAIN ++ SVG_SNOW) = true :=
  ⟨_, rfl, by decide, by decide, by decide⟩

-- ## C7 — fallback address

/-- Claim C7: when the trusted-proxy address walk yields no address (the
walk result is empty, or its last entry is `undefined`), the resolver
issues its geolocation lookup for the fixed fallback address
`156.74.181.208`. -/
theorem claim_C7 (addrs : List (Option String))
    (h : addrs.getLast? = none ∨ addrs.getLast? = some none) :
    getLocationIp addrs = "156.74.181.208" ∧
    geoUrl addrs = "http://ip-api.com/json/156.74.181.208" := by
  have h1 : getLocationIp addrs = "156.74.181.208" := by
    rcases h with h | h <;> simp [getLocationIp, h]
  refine ⟨h1, ?_⟩
  unfold geoUrl
  rw [h1]
  rfl

/-- Witness for C7: the empty walk result. -/
theorem claim_C7_witness :
    getLocationIp [] = "156.74.181.208" ∧
    geoUrl [] = "http://ip-api.com/json/156.74.181.208" :=
  claim_C7 [] (Or.inl rfl)

-- ## C8 — the renderer reads only the condition code

/-- Claim C8: `getIcon` is a pure function of `currently.icon` alone — two
payloads with the same condition code but arbitrary other fields render to
identical results. -/
theorem claim_C8 (i : String) (e₁ e₂ p₁ p₂ : List (String × JSVal)) :
    getIcon ⟨some ⟨i, e₁⟩, p₁⟩ = getIcon ⟨some ⟨i, e₂⟩, p₂⟩ := rfl

-- ## C9 — hail renders like snow

/-- Claim C9: payloads differing only in having `hail` versus `snow` as
their condition code render to identical SVG strings. -/
theorem claim_C9 (e p : List (String × JSVal)) :
    getIcon ⟨some ⟨"hail", e⟩, p⟩ = getIcon ⟨some ⟨"snow", e⟩, p⟩ := rfl

-- ## C10 — the implicit `currently` precondition

/-- Claim C10: `getIcon` is not total over parsed payloads: without a
`currently` object the field access throws (a `TypeError`), never
returning an SVG string, while any payload with a `currently` object
renders successfully. -/
theorem claim_C10 (p : List (String × JSVal)) :
    getIcon ⟨none, p⟩ = Except.error JsError.typeError ∧
    ∀ (cur : Currently) (q : List (String × JSVal)),
      ∃ out, getIcon ⟨some cur, q⟩ = Except.ok out := by
  refine ⟨rfl, ?_⟩
  intro cur q
  exact ⟨_, rfl⟩

/-- The renderer never reads anything but the condition code, so the other
payload fields can be replaced before evaluating a concrete rendering. -/
lemma getIcon_icon_only (i : String) (e₁ e₂ p₁ p₂ : List (String × JSVal)) :
    getIcon ⟨some ⟨i, e₁⟩, p₁⟩ = getIcon ⟨some ⟨i, e₂⟩, p₂⟩ := rfl

-- ## C4 — presence, wrapping and absence of the cloud overlay

/-- Claim C4: the cloud fragment is omitted exactly for `clear-day`,
`clear-night` and `wind`; for the partly-cloudy codes it appears wrapped
in the translating group (`<g transform="translate(20 50)">` … `</g>`);
for every other code it appears with no translating group opener
anywhere in the document. -/
theorem claim_C4 (c : String) (e p : List (String × JSVal)) :
    ∃ out, getIcon ⟨some ⟨c, e⟩, p⟩ = Except.ok out ∧
      ((strHas out SVG_CLOUD = false) ↔
        (c = "clear-day" ∨ c = "clear-night" ∨ c = "wind")) ∧
      ((c = "partly-cloudy-day" ∨ c = "partly-cloudy-night") →
        strHas out ("<g " ++ SVG_PARTLY_CLOUDY_TRANSFORM ++ ">" ++ SVG_CLOUD ++ "</g>")
          = true) ∧
      (¬(c = "clear-day" ∨ c = "clear-night" ∨ c = "wind") →
        ¬(c = "partly-cloudy-day" ∨ c = "partly-cloudy-night") →
        strHas out SVG_CLOUD = true ∧
        strHas out ("<g " ++ SVG_PARTLY_CLOUDY_TRANSFORM ++ ">") = false) := by
  by_cases h : c ∈ knownIcons
  · simp only [knownIcons, List.mem_cons, List.not_mem_nil, or_false] at h
    rcases h with rfl | rfl | rfl | rfl | rfl | rfl | rfl | rfl | rfl <;>
      · rw [getIcon_icon_only _ e [] p []]
        exact ⟨_, rfl, by decide⟩
  · have hne := h
    simp only [knownIcons, List.mem_cons, List.not_mem_nil, or_false, not_or] at hne
    obtain ⟨n1, n2, n3, n4, n5, n6, n7, n8, n9⟩ := hne
    refine ⟨DEFAULT_ICON_SVG, getIcon_unknown c e p h, ?_, ?_, ?_⟩
    · have hc : strHas DEFAULT_ICON_SVG SVG_CLOUD = true := by decide
      simp [hc, n1, n2, n9]
    · intro hpc
      rcases hpc with h' | h'
      · exact absurd h' n3
      · exact absurd h' n4
    · intro _ _
      exact ⟨by decide, by decide⟩

/-- Witness for C4: `partly-cloudy-day` wraps the cloud in the translating
group and closes it. -/
theorem claim_C4_witness :
    ∃ out, getIcon ⟨some ⟨"partly-cloudy-day", []⟩, []⟩ = Except.ok out ∧
      strHas out ("<g " ++ SVG_PARTLY_CLOUDY_TRANSFORM ++ ">" ++ SVG_CLOUD ++ "</g>")
        = true := by
  obtain ⟨out, h1, _, h3, _⟩ := claim_C4 "partly-cloudy-day" [] []
  exact ⟨out, h1, h3 (Or.inl rfl)⟩

-- ## C6 — every rendering is a complete SVG document

/-- Claim C6: for every condition code, known or unknown, the rendered
output begins with the fixed XML declaration and `<svg>` opening tag
(carrying `viewbox="0 0 200 230"`), ends with `</svg>`, and contains the
credit text fragment exactly once. -/
theorem claim_C6 (c : String) (e p : List (String × JSVal)) :
    ∃ out, getIcon ⟨some ⟨c, e⟩, p⟩ = Except.ok out ∧
      SVG_DOC_OPEN.data.isPrefixOf out.data = true ∧
      ("</svg>".data).isSuffixOf out.data = true ∧
      substrCount SVG_CREDIT.data out.data = 1 := by
  by_cases h : c ∈ knownIcons
  · simp only [knownIcons, List.mem_cons, List.not_mem_nil, or_false] at h
    rcases h with rfl | rfl | rfl | rfl | rfl | rfl | rfl | rfl | rfl <;>
      · rw [getIcon_icon_only _ e [] p []]
        exact ⟨_, rfl, by decide, by decide, by decide⟩
  · exact ⟨DEFAULT_ICON_SVG, getIcon_unknown c e p h, by decide, by decide,
      by decide⟩
